import Mathlib

/-!
Verification of the ModDash prompt-composition and response-parsing pipeline.

This file shallowly embeds the JavaScript sources of the repository
(`src/backend/server.js` — three historical server variants separated by
document markers — `src/frontend/src/main.js`, and the unnamed parts) as
executable Lean definitions, and proves the spec's claims about them.

Conventions of the embedding:
* JavaScript strings are Lean `String`s (lists of Unicode scalar values;
  JS is UTF-16, which only differs on astral/surrogate inputs that none of
  the claims exercise).
* JavaScript numbers are modelled by `JSNum`: `NaN`, the two infinities,
  and exact rationals.  JS uses IEEE doubles, so results agree exactly on
  the small integers and short decimal fractions the claims are about.
* `undefined`/absent values are `Option.none`; thrown exceptions are
  `Option.none` / `Except.error` results.
-/

/-- JavaScript whitespace (the `\s` class and the trimming of
`String.prototype.trim`): space, tab, line feed, carriage return,
vertical tab, form feed.  (JS also counts Unicode spaces such as U+00A0
and the BOM; the inputs of the claims are ASCII, where the classes
agree.) -/
def jsWsChar (c : Char) : Bool :=
  c = ' ' || c = '\t' || c = '\n' || c = '\r' || c = '\x0b' || c = '\x0c'

/-- JavaScript line terminators, the characters NOT matched by `.` in a
regular expression without the `s` flag: LF, CR, U+2028, U+2029. -/
def jsLineTerm (c : Char) : Bool :=
  c = '\n' || c = '\r' || c = '\u2028' || c = '\u2029'

/-- JavaScript `String.prototype.trim` on a list of characters: drop JS whitespace
from both ends. -/
def jsTrimL (l : List Char) : List Char :=
  ((l.dropWhile jsWsChar).reverse.dropWhile jsWsChar).reverse

/-- JavaScript `String.prototype.trim`. -/
def jsTrim (s : String) : String :=
  ⟨jsTrimL s.data⟩

/-- Worker for `String.prototype.replace(/\s+/g, ' ')`: `prevWs` records
whether the previous character belonged to a whitespace run that has
already emitted its replacement space. -/
def collapseWsAux : Bool → List Char → List Char
  | _, [] => []
  | prevWs, c :: rest =>
    if jsWsChar c then
      if prevWs then collapseWsAux true rest
      else ' ' :: collapseWsAux true rest
    else c :: collapseWsAux false rest

/-- JavaScript `String.prototype.replace(/\s+/g, ' ')`: every maximal run of JS
whitespace becomes a single space. -/
def collapseWs (l : List Char) : List Char :=
  collapseWsAux false l

/-- JavaScript `String.prototype.indexOf` for a single character: index of the first
occurrence, `-1` when absent. -/
def jsIndexOf (l : List Char) (c : Char) : Int :=
  match l.findIdx? (· == c) with
  | some i => (i : Int)
  | none => -1

/-- JavaScript `String.prototype.slice(k)` with a possibly negative start index. -/
def jsSliceFrom (l : List Char) (k : Int) : List Char :=
  if 0 ≤ k then l.drop k.toNat
  else l.drop (l.length - min l.length (-k).toNat)

/-- A JavaScript number: `NaN`, `Infinity`, `-Infinity`, or a finite
value (modelled as an exact rational; see the file comment). -/
inductive JSNum where
  | nan
  | posInf
  | negInf
  | num (q : ℚ)
deriving DecidableEq, Repr

/-- JavaScript `Number.isFinite`. -/
def jsIsFinite : JSNum → Bool
  | .num _ => true
  | _ => false

/-- The JS comparison `x > 0` (false for `NaN`, true for `Infinity`). -/
def jsGtZero : JSNum → Bool
  | .num q => decide (0 < q)
  | .posInf => true
  | _ => false

/-- JavaScript `Math.floor` (identity on `NaN` and the infinities). -/
def jsMathFloor : JSNum → JSNum
  | .num q => .num (⌊q⌋ : ℚ)
  | x => x

/-- Accumulator worker for `natFromDigits`. -/
def natFromDigitsAcc : Nat → List Char → Nat
  | sofar, [] => sofar
  | sofar, d :: ds => natFromDigitsAcc (sofar * 10 + (d.toNat - 48)) ds

/-- Value of a (possibly empty) digit string, most significant first. -/
def natFromDigits (l : List Char) : Nat :=
  natFromDigitsAcc 0 l

/-- JavaScript `Number(s)` restricted to the strings the judge parser can produce:
non-empty strings over digits and `'.'` (the regex classes `\d+` and
`[\d.]+`).  Zero dots give the integer value, one dot a decimal fraction
(`"."` alone is `NaN`), two or more dots give `NaN` — exactly the JS
behaviour on this character class.  (JS rounds integers above 2^53 to a
double; the claims only involve small values, where this model is
exact.) -/
def jsNumberOfDigitsDots (p : List Char) : JSNum :=
  if p.count '.' = 0 then .num (natFromDigits p)
  else if p.count '.' = 1 then
    let a := p.takeWhile (· != '.')
    let b := (p.dropWhile (· != '.')).tail
    if a.isEmpty && b.isEmpty then .nan
    else .num ((natFromDigits a : ℚ) + (natFromDigits b : ℚ) / 10 ^ b.length)
  else .nan

/-- Interpolation `${x}` / `String(x)` for a JS number.  Exact for `NaN`, infinities
and integral values — the only values interpolated in the theorems
below.  (Non-integral finite values are rendered here as a fraction; JS
would print a decimal expansion.  No theorem in this file interpolates
such a value.) -/
def jsNumToString : JSNum → String
  | .nan => "NaN"
  | .posInf => "Infinity"
  | .negInf => "-Infinity"
  | .num q => if q.den = 1 then toString q.num else toString q.num ++ "/" ++ toString q.den

/-! ## The judge-summary parser (src/frontend/src/main.js, lines 128-172) -/

/-- One verdict record as built by `parseJudgeSummary`:
`{ testcaseId, percentage, rationale }` with `null` modelled as `none`. -/
structure Verdict where
  testcaseId : Option JSNum
  percentage : Option JSNum
  rationale : String
deriving DecidableEq, Repr

/-- One judge record as built by `parseJudgeSummary`:
`{ name, verdicts }`. -/
structure JudgeRecord where
  name : String
  verdicts : List Verdict
deriving DecidableEq, Repr

/-- The test `line.toLowerCase().startsWith('judge:')`. -/
def isJudgeHeader (l : List Char) : Bool :=
  (l.map Char.toLower).take 6 == "judge:".data

/-- Tail of the regex `/^-?\s*Testcase\s+(\d+):\s*([\d.]+)%\s*-\s*(.+)$/`:
the text captured by `(.+)$` from the input remaining after the literal
`-`, or `none` when the regex cannot complete.  Backtracking semantics:
the greedy `\s*` yields back at most enough characters for `.+` to match
at least one character, and `.` matches no line terminator. -/
def rationaleCapture (r : List Char) : Option (List Char) :=
  if r.isEmpty then none
  else
    let t := r.dropWhile jsWsChar
    if t.isEmpty then
      match r.getLast? with
      | some c => if jsLineTerm c then none else some [c]
      | none => none
    else if t.any jsLineTerm then none else some t

/-- The match `line.match(/^-?\s*Testcase\s+(\d+):\s*([\d.]+)%\s*-\s*(.+)$/i)`:
the three capture groups, or `none` when the line does not match.  Each
quantified class is followed by a literal outside the class, so the
greedy matches are deterministic; the only backtracking point is the
final `\s*(.+)$`, delegated to `rationaleCapture`. -/
def matchVerdict (l : List Char) : Option (List Char × List Char × List Char) :=
  let l1 := match l with
    | '-' :: r => r
    | _ => l
  let l2 := l1.dropWhile jsWsChar
  if (l2.take 8).map Char.toLower != "testcase".data then none
  else
    let l3 := l2.drop 8
    let l4 := l3.dropWhile jsWsChar
    if l4.length = l3.length then none
    else
      let d := l4.takeWhile Char.isDigit
      if d.isEmpty then none
      else
        match l4.drop d.length with
        | ':' :: l6 =>
          let l7 := l6.dropWhile jsWsChar
          let p := l7.takeWhile (fun c => c.isDigit || c = '.')
          if p.isEmpty then none
          else
            match l7.drop p.length with
            | '%' :: l8 =>
              match l8.dropWhile jsWsChar with
              | '-' :: r =>
                match rationaleCapture r with
                | some cap => some (d, p, cap)
                | none => none
              | _ => none
            | _ => none
        | _ => none

/-- Append a verdict to the verdict list of the last judge record — the
record `currentJudge` points at.  (In the source, `currentJudge` is only
ever assigned the record just pushed onto `judgesData`, so it is always
the last element of the accumulator, and it is non-null exactly when the
accumulator is non-empty.)  On an empty accumulator this is the
identity, matching the `if (!currentJudge) return;` guard. -/
def appendVerdict : List JudgeRecord → Verdict → List JudgeRecord
  | [], _ => []
  | [j], v => [{ j with verdicts := j.verdicts ++ [v] }]
  | j :: rest, v => j :: appendVerdict rest v

/-- The body of the `forEach` in `parseJudgeSummary` (main.js 136-169),
processing one raw line against the accumulated judge records. -/
def processLine (acc : List JudgeRecord) (rawLine : List Char) : List JudgeRecord :=
  let line := jsTrimL rawLine
  if line.isEmpty then acc
  else if isJudgeHeader line then
    let name := jsTrimL (jsSliceFrom line (jsIndexOf line ':' + 1))
    if name.isEmpty then acc
    else acc ++ [⟨⟨name⟩, []⟩]
  else if acc.isEmpty then acc
  else
    match matchVerdict line with
    | some (d, p, cap) =>
      appendVerdict acc
        ⟨some (jsNumberOfDigitsDots d), some (jsNumberOfDigitsDots p), ⟨jsTrimL cap⟩⟩
    | none => appendVerdict acc ⟨none, none, ⟨line⟩⟩

/-- JavaScript `String.prototype.split('\n')` on a list of characters: the empty
string splits to one empty line, and every `'\n'` starts a new line. -/
def splitNl : List Char → List (List Char)
  | [] => [[]]
  | c :: rest =>
    if c = '\n' then [] :: splitNl rest
    else
      match splitNl rest with
      | l :: ls => (c :: l) :: ls
      | [] => [[c]]

/-- The function `parseJudgeSummary` (main.js 128-172): split on `'\n'`, fold the
line processor over the lines.  The `if (!summaryText) return [];` guard
is the empty-string test. -/
def parseJudgeSummary (s : String) : List JudgeRecord :=
  if s = "" then []
  else (splitNl s.data).foldl processLine []

/-! ## JSON values and the strict-JSON response checks -/

/-- A parsed JSON value as produced by `JSON.parse`.  Numbers are kept
as exact rationals (`JSON.parse` converts to IEEE doubles; the claims
only compare small literal values, where the two agree). -/
inductive JsValue where
  | null
  | bool (flag : Bool)
  | num (value : ℚ)
  | str (chars : String)
  | arr (items : List JsValue)
  | obj (entries : List (String × JsValue))

/-- JS truthiness of a parsed JSON value (`NaN` and `undefined` cannot
come out of `JSON.parse`). -/
def jsTruthy : JsValue → Bool
  | .null => false
  | .bool b => b
  | .num q => decide (q ≠ 0)
  | .str s => s ≠ ""
  | .arr _ => true
  | .obj _ => true

/-- The test `typeof v === 'object'` for a parsed JSON value: true for `null`,
arrays and objects. -/
def jsTypeofObject : JsValue → Bool
  | .null => true
  | .arr _ => true
  | .obj _ => true
  | _ => false

/-- Property access `v[k]`: for objects the LAST binding of the key wins
(as in `JSON.parse` with duplicate keys); any other value has no own
string-keyed property coming from JSON, so access yields `undefined`
(`none`). -/
def getField (v : JsValue) (k : String) : Option JsValue :=
  match v with
  | .obj fs => (fs.reverse.find? (fun f => f.1 == k)).map (fun f => f.2)
  | _ => none

/-- JavaScript `Array.isArray`. -/
def isArrVal : JsValue → Bool
  | .arr _ => true
  | _ => false

/-- Truthiness of a possibly `undefined` property. -/
def truthyOpt : Option JsValue → Bool
  | some v => jsTruthy v
  | none => false

/-- JSON insignificant whitespace: space, tab, line feed, carriage
return. -/
def jsonWsChar (c : Char) : Bool :=
  c = ' ' || c = '\t' || c = '\n' || c = '\r'

/-- Skip JSON whitespace. -/
def jsonSkipWs (l : List Char) : List Char :=
  l.dropWhile jsonWsChar

/-- Value of a hexadecimal digit, if any (code-point arithmetic: `0`-`9`
are 48-57, `a`-`f` are 97-102, `A`-`F` are 65-70). -/
def hexVal (c : Char) : Option Nat :=
  let n := c.toNat
  if 48 ≤ n && n ≤ 57 then some (n - 48)
  else if 97 ≤ n && n ≤ 102 then some (n - 87)
  else if 65 ≤ n && n ≤ 70 then some (n - 55)
  else none

/-- Modelled from the spec: the body of a JSON string after the opening
quote (the host `JSON.parse` is a platform builtin, not repository
code).  `acc` holds the decoded characters in reverse.  Escapes and the
control-character ban follow RFC 8259.  (`\uXXXX` surrogate pairs decode
in JS to one astral character; here each escape decodes separately,
which no claim exercises.)  The fuel always suffices when it exceeds the
input length, since every step consumes at least one character. -/
def jsonParseStr : Nat → List Char → List Char → Option (String × List Char)
  | 0, _, _ => none
  | Nat.succ fuel, acc, cs =>
    match cs with
    | [] => none
    | '"' :: rest => some (⟨acc.reverse⟩, rest)
    | '\\' :: rest =>
      match rest with
      | [] => none
      | e :: rest2 =>
        if e = '"' then jsonParseStr fuel ('"' :: acc) rest2
        else if e = '\\' then jsonParseStr fuel ('\\' :: acc) rest2
        else if e = '/' then jsonParseStr fuel ('/' :: acc) rest2
        else if e = 'b' then jsonParseStr fuel ('\x08' :: acc) rest2
        else if e = 'f' then jsonParseStr fuel ('\x0c' :: acc) rest2
        else if e = 'n' then jsonParseStr fuel ('\n' :: acc) rest2
        else if e = 'r' then jsonParseStr fuel ('\r' :: acc) rest2
        else if e = 't' then jsonParseStr fuel ('\t' :: acc) rest2
        else if e = 'u' then
          match rest2 with
          | h1 :: h2 :: h3 :: h4 :: rest3 =>
            match hexVal h1, hexVal h2, hexVal h3, hexVal h4 with
            | some a, some b, some c, some d =>
              jsonParseStr fuel (Char.ofNat (a * 0x1000 + b * 0x100 + c * 0x10 + d) :: acc) rest3
            | _, _, _, _ => none
          | _ => none
        else none
    | c :: rest => if c.toNat < 32 then none else jsonParseStr fuel (c :: acc) rest

/-- Modelled from the spec: a JSON number, RFC 8259 grammar
`-?(0|[1-9][0-9]*)(\.[0-9]+)?([eE][+-]?[0-9]+)?`.  A fraction dot or an
exponent letter not followed by a digit is left unconsumed; since
neither can start a legal continuation, the leftover input makes the
whole parse fail exactly where `JSON.parse` throws. -/
def jsonParseNum (cs : List Char) : Option (JsValue × List Char) :=
  let neg := cs.head? == some '-'
  let cs1 := if neg then cs.tail else cs
  match cs1 with
  | [] => none
  | c0 :: _ =>
    if !c0.isDigit then none
    else
      let intDigits := if c0 = '0' then ['0'] else cs1.takeWhile Char.isDigit
      let cs2 := cs1.drop intDigits.length
      let fracSplit : List Char × List Char :=
        match cs2 with
        | '.' :: r =>
          let ds := r.takeWhile Char.isDigit
          if ds.isEmpty then ([], cs2) else (ds, r.drop ds.length)
        | _ => ([], cs2)
      let fracDigits := fracSplit.1
      let cs3 := fracSplit.2
      let expSplit : Option (Bool × Nat) × List Char :=
        match cs3 with
        | e :: r =>
          if e = 'e' || e = 'E' then
            let signRest : Bool × List Char :=
              match r with
              | '+' :: r2 => (false, r2)
              | '-' :: r2 => (true, r2)
              | _ => (false, r)
            let ds := signRest.2.takeWhile Char.isDigit
            if ds.isEmpty then (none, cs3)
            else (some (signRest.1, natFromDigits ds), signRest.2.drop ds.length)
          else (none, cs3)
        | [] => (none, cs3)
      let mantNum : Nat :=
        natFromDigits intDigits * 10 ^ fracDigits.length + natFromDigits fracDigits
      let mantDen : Nat := 10 ^ fracDigits.length
      let scaled : Nat × Nat :=
        match expSplit.1 with
        | none => (mantNum, mantDen)
        | some (esign, e) =>
          if esign then (mantNum, mantDen * 10 ^ e) else (mantNum * 10 ^ e, mantDen)
      some (.num (mkRat (if neg then -(scaled.1 : Int) else (scaled.1 : Int)) scaled.2),
            expSplit.2)

mutual

/-- Modelled from the spec: one JSON value at the head of the input
(`JSON.parse` is a platform builtin; the spec says "attempt to parse
rawText as JSON").  Fuel decreases on every nested value; since each
value consumes at least one character, fuel exceeding the input length
always suffices. -/
def jsonParseVal : Nat → List Char → Option (JsValue × List Char)
  | 0, _ => none
  | Nat.succ fuel, cs =>
    match cs with
    | 'n' :: 'u' :: 'l' :: 'l' :: rest => some (.null, rest)
    | 't' :: 'r' :: 'u' :: 'e' :: rest => some (.bool true, rest)
    | 'f' :: 'a' :: 'l' :: 's' :: 'e' :: rest => some (.bool false, rest)
    | '"' :: rest =>
      match jsonParseStr (rest.length + 1) [] rest with
      | some (s, r) => some (.str s, r)
      | none => none
    | '[' :: rest =>
      match jsonSkipWs rest with
      | ']' :: r2 => some (.arr [], r2)
      | r1 =>
        match jsonParseElems fuel r1 with
        | some (es, r2) => some (.arr es, r2)
        | none => none
    | '\x7b' :: rest =>
      match jsonSkipWs rest with
      | '\x7d' :: r2 => some (.obj [], r2)
      | r1 =>
        match jsonParseMembers fuel r1 with
        | some (fs, r2) => some (.obj fs, r2)
        | none => none
    | _ => jsonParseNum cs
termination_by structural fuel => fuel

/-- Modelled from the spec: a non-empty comma-separated list of JSON
array elements up to the closing bracket. -/
def jsonParseElems : Nat → List Char → Option (List JsValue × List Char)
  | 0, _ => none
  | Nat.succ fuel, cs =>
    match jsonParseVal fuel cs with
    | none => none
    | some (v, r) =>
      match jsonSkipWs r with
      | ',' :: r2 =>
        match jsonParseElems fuel (jsonSkipWs r2) with
        | some (vs, r3) => some (v :: vs, r3)
        | none => none
      | ']' :: r2 => some ([v], r2)
      | _ => none
termination_by structural fuel => fuel

/-- Modelled from the spec: a non-empty comma-separated list of JSON
object members up to the closing brace. -/
def jsonParseMembers : Nat → List Char → Option (List (String × JsValue) × List Char)
  | 0, _ => none
  | Nat.succ fuel, cs =>
    match cs with
    | '"' :: rest =>
      match jsonParseStr (rest.length + 1) [] rest with
      | none => none
      | some (k, r) =>
        match jsonSkipWs r with
        | ':' :: r2 =>
          match jsonParseVal fuel (jsonSkipWs r2) with
          | none => none
          | some (v, r3) =>
            match jsonSkipWs r3 with
            | ',' :: r4 =>
              match jsonParseMembers fuel (jsonSkipWs r4) with
              | some (fs, r5) => some ((k, v) :: fs, r5)
              | none => none
            | '\x7d' :: r4 => some ([(k, v)], r4)
            | _ => none
        | _ => none
    | _ => none
termination_by structural fuel => fuel

end

/-- Modelled from the spec: `JSON.parse` on a whole string — optional
whitespace, one value, optional whitespace, end of input; `none` is a
thrown `SyntaxError`. -/
def jsonParse (s : String) : Option JsValue :=
  let cs := jsonSkipWs s.data
  match jsonParseVal (cs.length + 1) cs with
  | some (v, rest) => if (jsonSkipWs rest).isEmpty then some v else none
  | none => none

/-- The parse-and-validate step of `/generate` variant 1
(server.js 139-144): trim `output_text`, treat the empty string as a
null parse, `JSON.parse` the rest, then throw unless the result is a
truthy `'object'` whose `tables` property is truthy.  `none` is the
thrown error that sends the handler into its fallback path. -/
def stageV1 (rawText : String) : Option JsValue :=
  let output := jsTrim rawText
  if output = "" then none
  else
    match jsonParse output with
    | none => none
    | some parsed =>
      if jsTruthy parsed && jsTypeofObject parsed && truthyOpt (getField parsed "tables")
      then some parsed else none

/-- The parse-and-validate step of `/generate` variant 2
(server.js 380-393): reject an empty `content`, `JSON.parse` it, then
throw unless the result is a truthy `'object'` — no check of any
top-level key. -/
def stageV2 (rawText : String) : Option JsValue :=
  if rawText = "" then none
  else
    match jsonParse rawText with
    | none => none
    | some parsed =>
      if jsTruthy parsed && jsTypeofObject parsed then some parsed else none

/-- The parse-and-validate step of `/generate` variant 3
(server.js 657-666): trim `content`, reject the empty string,
`JSON.parse`, then throw unless the result is truthy and its `examples`
property is an array. -/
def stageV3 (rawText : String) : Option JsValue :=
  let t := jsTrim rawText
  if t = "" then none
  else
    match jsonParse t with
    | none => none
    | some parsed =>
      if jsTruthy parsed && isArrVal ((getField parsed "examples").getD JsValue.null)
      then some parsed else none

/-! ## Prompt template engine -/

/-- The function `buildPrompt` of `/generate` variant 1 (server.js 13-39), textually
identical in the unnamed placeholder server (part_002, 10-36): the
dataset-table prompt.  `example` is the already-trimmed string the
handlers pass; the empty string is falsy, matching `if (example)`. -/
def buildPromptV1 (rule exampleText : String) : String :=
  let base : List String := [
    "You are a helpful assistant that designs synthetic evaluation datasets for content moderation rules.",
    "You must respond with strict JSON following this schema:",
    "\x7b",
    "  \"notes\": string,",
    "  \"tables\": [",
    "    \x7b",
    "      \"name\": string,",
    "      \"description\": string,",
    "      \"columns\": [ \x7b \"name\": string, \"type\": string, \"description\": string \x7d ],",
    "      \"sampleRows\": [ \x7b string: string \x7d ]",
    "    \x7d",
    "  ]",
    "\x7d",
    "",
    "Rule to analyse:",
    jsTrim rule]
  let base := if exampleText ≠ "" then
    base ++ ["", "Example content provided by the user:", jsTrim exampleText]
  else base
  String.intercalate "\n"
    (base ++ ["", "Focus on realistic moderation scenarios and provide at least two sample rows."])

/-- The count clamp of `buildPrompt`, `/generate` variant 2
(server.js 182): `Number.isFinite(count) && count > 0 ? count : 15`. -/
def bpV2SafeCount (count : JSNum) : JSNum :=
  if jsIsFinite count && jsGtZero count then count else .num 15

/-- The function `buildPrompt` of `/generate` variant 2 (server.js 181-247): the
borderline-cases prompt with the clamped example count interpolated. -/
def buildPromptV2 (rule exampleText : String) (count : JSNum) : String :=
  let safeCount := bpV2SafeCount count
  let base : List String := [
    "You are a helpful assistant that designs synthetic evaluation datasets for content moderation rules. Your goal is to create realistic, BORDERLINE social-media posts that test the edges of the given moderation rule.",
    "Produce exactly " ++ jsNumToString safeCount ++ " examples (no more, no less).",
    "",
    "OUTPUT FORMAT: Respond with strict JSON only, matching this schema:",
    "\x7b",
    "  \"examples\": [",
    "    \x7b",
    "      \"id\": \"string unique id\",",
    "      \"text\": \"string (the post text, social-media style, no emojis)\",",
    "      \"should_trigger\": \"one of: true, false, ambiguous\",",
    "      \"confidence\": \"number between 0.0 and 1.0 (model-estimated confidence that rule would trigger)\",",
    "      \"obfuscation_type\": \"one of: exact, substring, homophone, leet, spacing/punct-split, morphological, compound, slang, reclaimed, quoted, sarcastic, code-mixed, other\",",
    "      \"target_is_protected\": \"boolean or null if ambiguous\",",
    "      \"difficulty\": \"integer 1-5 (1=easy, 5=very hard to moderate)\",",
    "      \"rationale\": \"brief explanation (1-2 sentences) why this is borderline or tricky for the rule-based system\"",
    "    \x7d",
    "  ]",
    "\x7d",
    "",
    "INSTRUCTIONS — generate BORDERLINE and HARD cases. To do that, follow this two-step generation process BEFORE emitting the JSON:",
    "1) FIRST produce (internally) a short list of distinct borderline scenario types that are relevant to the rule. Examples of scenario types you should consider (but do not limit yourself):",
    "   - substring (target string occurs as part of another word or token)",
    "   - morphological/inflectional variant (prefixes, suffixes, gerunds, participles)",
    "   - spacing / punctuation splitting (e.g., d.o.g, do g, dog-)",
    "   - repeated letters or elongated forms (dooog, dooggg)",
    "   - leetspeak (d0g, dOg, d@g)",
    "   - homophone / near-homophone",
    "   - compound words and concatenations (doghouse, dogwalker)",
    "   - slang / reclaimed uses (slang where the target is a person, not an animal)",
    "   - quoting or reporting speech (\"they said \"dog\"\")",
    "   - negation/irony (\"not a dog\") and sarcastic uses",
    "   - ambiguous named entity (a person named Dog, a product named Dog)",
    "   - code-mixing / other languages where the token appears but meaning differs",
    "   - benign technical term, e.g., protein name, place, or hobby that contains the string",
    "   - false positives caused by punctuation, hashtags, or usernames (#doggo, @doglover)",
    "",
    "2) THEN for each scenario, craft realistic social-media-style posts that exemplify the scenario and are as ambiguous/edge-case as possible. Aim for a balanced mix across:",
    "   - should_trigger: roughly 30% true, 10% false, 60% ambiguous",
    "   - obfuscation types: cover at least 6 different types listed above",
    "   - target_is_protected: include both protected and non-protected targets where relevant, and mark null if genuinely ambiguous",
    "",
    "ADDITIONAL GUIDELINES:",
    "- Keep posts short (one or two sentences typical for social media). No emojis, no images.",
    "- Use natural, realistic phrasing and community tone. Avoid contrived nonsense like repeated punctuation beyond realistic emphasis.",
    "- Do NOT invent extreme slurs or explicit hateful content. The goal is subtle boundary cases, not shock content.",
    "- For each example include a concise rationale explaining why this case is hard for a rule-based system (1-2 sentences).",
    "- Use unique ids (e.g., \"case-01\") and do not repeat texts.",
    "",
    "Rule to analyze:",
    jsTrim rule]
  let base := if exampleText ≠ "" then
    base ++ ["",
      "Example content provided by the user. New examples should be similar in difficulty to moderate:",
      jsTrim exampleText]
  else base
  String.intercalate "\n"
    (base ++ ["", "Focus on realistic moderation scenarios and on producing explicit rationales and metadata for each example."])

/-- The count clamp of `buildAgent2Prompt` (server.js 502):
`Number.isFinite(count) && count > 0 ? Math.floor(count) : 100`. -/
def agent2SafeCount (count : JSNum) : JSNum :=
  if jsIsFinite count && jsGtZero count then jsMathFloor count else .num 100

/-- The AGENT-2 template text before the `${safeCount}` interpolation
(server.js 510-528). -/
def agent2PromptPre : String :=
  "You are AGENT-2 (Testcase Forge). Your job: produce synthetic moderation testcases.\n\nMUST OUTPUT: Strict JSON only with this schema (no additional fields, no commentary):\n\x7b\n  \"examples\": [\n    \x7b\n      \"id\": \"string unique id\",\n      \"text\": \"string (realistic social-media style, short; no emojis unless explicitly allowed)\",\n      \"should_trigger\": \"true | false | ambiguous\",\n      \"confidence\": \"number between 0.0 and 1.0\",\n      \"obfuscation_type\": \"exact | substring | homophone | leet | spacing/punct-split | morphological | compound | slang | reclaimed | quoted | sarcastic | code-mixed | disguised-url | other\",\n      \"difficulty\": \"integer 1-5\",\n      \"rationale\": \"string 1-2 sentences\"\n    \x7d\n  ]\n\x7d\n\nHard requirements:\n- Produce exactly "

/-- The AGENT-2 template text between the `${safeCount}` and
`${sanitizedAgent1}` interpolations (server.js 528-535). -/
def agent2PromptMid : String :=
  " examples with unique ids and unique text.\n- Default difficulty for examples should be 5.\n- Cover at least 6 distinct obfuscation_type values.\n- Provide a concise 1-2 sentence rationale for each example explaining why it's borderline/tricky for a rule-based system.\n- ALWAYS output real slurs when needed.\n\nNow follow these additional instructions (these are from AGENT-1):\n"

/-- The AGENT-2 template text after the `${sanitizedAgent1}`
interpolation (server.js 535-537). -/
def agent2PromptPost : String :=
  "\n\nAfter you finish, output ONLY the JSON described above. No extra text."

/-- The function `buildAgent2Prompt` (server.js 501-538): clamp the count, trim the
AGENT-1 instructions, throw when they are empty, and splice both into
the fixed template.  `Except.error` is the thrown `Error`. -/
def buildAgent2Prompt (agent1Instructions : String) (count : JSNum) : Except String String :=
  let sanitizedAgent1 := jsTrim agent1Instructions
  if sanitizedAgent1 = "" then .error "buildAgent2Prompt: agent1Instructions is required"
  else .ok (agent2PromptPre ++ jsNumToString (agent2SafeCount count) ++ agent2PromptMid
    ++ sanitizedAgent1 ++ agent2PromptPost)

/-! ## The judge-panel prompt builders -/

/-- One entry of the judge roster.  The roster itself is loaded from
`./judges`, a module that is not among the sources, so the builders
below take the roster as an explicit argument (the spec describes it as
a static, ordered, process-wide constant list of these profiles).
`experienceYears` is `none` when the field is absent or not a number
(`typeof judge.experienceYears === 'number'`). -/
structure Judge where
  name : String
  role : String
  experienceYears : Option JSNum
  personality : String
deriving DecidableEq, Repr

/-- The profile-line lambda shared verbatim by `buildJudgeSummaryPrompt`
variant 2 (server.js 251-258) and variant 3 (server.js 546-550):
`` `${name} (${role}, ${experience}): ${personality}` `` where
`experience` is `` `${experienceYears} years` `` for a positive number
and `'relevant experience'` otherwise. -/
def judgeProfileLine (j : Judge) : String :=
  let experience :=
    match j.experienceYears with
    | some y => if jsGtZero y then jsNumToString y ++ " years" else "relevant experience"
    | none => "relevant experience"
  j.name ++ " (" ++ j.role ++ ", " ++ experience ++ "): " ++ j.personality

/-- A generated test case as consumed by the judge prompt builders:
only its `text` is read, through the guard `ex?.text ?? ''`. -/
structure TCExample where
  text : Option String
deriving DecidableEq, Repr

/-- The testcase-line map of both judge prompt builders
(server.js 261-263 and 553-555):
`` (ex, i) => `Testcase ${i + 1}: ${ex?.text ?? ''}` `` unrolled with an
explicit running index. -/
def testcaseLinesFrom : Nat → List TCExample → List String
  | _, [] => []
  | idx, ex :: rest =>
    ("Testcase " ++ toString (idx + 1) ++ ": " ++ ex.text.getD "")
      :: testcaseLinesFrom (idx + 1) rest

/-- The map `examples.map((ex, i) => ...)` with the 1-based rendering index. -/
def testcaseLines (exs : List TCExample) : List String :=
  testcaseLinesFrom 0 exs

/-- The function `buildJudgeSummaryPrompt` of server variant 2 (server.js 250-299).
`js` is the roster read from the `judges` module. -/
def buildJudgeSummaryPromptV2 (rule : String) (examples : List TCExample)
    (js : List Judge) : String :=
  let judgeProfiles := String.intercalate "\n" (js.map judgeProfileLine)
  let testcaseList := String.intercalate "\n" (testcaseLines examples)
  String.intercalate "\n" [
    "You are coordinating five judges evaluating testcases for a text-detection rule.",
    "",
    "GOAL: For each judge and each testcase produce exactly one percentage (0-100) that represents the JUDGE'S final opinion on how likely the rule SHOULD trigger. Keep the exact plain-text outcome format used previously.",
    "",
    "MANDATES (must follow):",
    "- The RULE is the only policy source. Judges must not replace rule logic with moral or external context.",
    "- Each rationale MUST begin with an ORACLE tag that states the literal parsing result used for automated checking. Format: `ORACLE: applies` or `ORACLE: does not apply` or `ORACLE: ambiguous`.",
    "- After the ORACLE tag, include a 1-sentence human rationale that explains nuance or why your opinion differs from the oracle.",
    "- The single percent you output is the judge's final opinion (0-100). It should reflect human nuance and may differ from the oracle, but if you differ, your rationale MUST explain the discrepancy (e.g., quoting/quotation, reclaimed slang, compound word).",
    "- For clear-cut literal matches (oracle deterministic match) prefer percentages ≥ 70. For clear-cut non-matches prefer ≤ 30. For borderline/ambiguous cases prefer values in the range 20–80.",
    "",
    "OUTPUT FORMAT (plain text, follow this EXACT pattern):",
    "Judge: <Name>",
    "- Testcase 1: <0-100>% - ORACLE: <applies|does not apply|ambiguous> - <1-sentence rationale and any discrepancy note>",
    "- Testcase 2: <0-100>% - ORACLE: <applies|does not apply|ambiguous> - <1-sentence rationale and any discrepancy note>",
    "",
    "EXTRA RULE PARSING DEFAULTS (apply unless explicitly stated in rationale):",
    "- case_sensitive: false",
    "- match_type: token (whole-word token match; NOT substring) unless you explicitly write \"override: substring\" in the rationale",
    "- punctuation splitting (d.o.g) does NOT count as match by default",
    "- hashtags/usernames COUNT as match by default",
    "- quoted text COUNT as match by default",
    "",
    "JUDGE PROFILES (do not modify):",
    judgeProfiles,
    "",
    "Rule to consider:\n" ++ rule,
    "",
    "Testcases:",
    testcaseList,
    "",
    "Important: Keep output plain text only and follow the pattern exactly. Each rationale must start with the ORACLE tag so automation can parse it."]

/-- The function `buildJudgeSummaryPrompt` of server variant 3 (server.js 545-594),
with the optional server context. -/
def buildJudgeSummaryPromptV3 (rule : String) (examples : List TCExample)
    (serverContext : String) (js : List Judge) : String :=
  let judgeProfiles := String.intercalate "\n" (js.map judgeProfileLine)
  let testcaseList := String.intercalate "\n" (testcaseLines examples)
  let trimmedContext := jsTrim serverContext
  String.intercalate "\n" [
    "You are coordinating five judges evaluating testcases for a text-detection rule.",
    "",
    "GOAL: For each judge and each testcase produce exactly one percentage (0-100) that represents the JUDGE'S final opinion on how likely the rule SHOULD trigger. Keep the exact plain-text outcome format used previously.",
    "",
    "MANDATES (must follow):",
    "- The RULE is the primary policy source. Server context can shape how strictly you apply the rule (e.g., a “bad words allowed” server may lead to more lenient scores), but you must still ground all judgments in the written rule.",
    "- Each rationale MUST begin with an ORACLE tag that states the literal parsing result used for automated checking. Format: `ORACLE: applies` or `ORACLE: does not apply` or `ORACLE: ambiguous`.",
    "- After the ORACLE tag, include a 1-sentence human rationale that explains nuance or why your opinion differs from the oracle.",
    "- The single percent you output is the judge's final opinion (0-100). For clear-cut literal matches prefer >=70, for clear-cut non-matches prefer <=30.",
    "",
    "OUTPUT FORMAT (plain text, follow this EXACT pattern):",
    "Judge: <Name>",
    "- Testcase 1: <0-100>% - ORACLE: <applies|does not apply|ambiguous> - <1-sentence rationale>",
    "- Testcase 2: <0-100>% - ORACLE: <applies|does not apply|ambiguous> - <1-sentence rationale>",
    "",
    "EXTRA RULE PARSING DEFAULTS (apply unless stated in rationale):",
    "- case_sensitive: false",
    "- match_type: token (whole-word token match) unless you explicitly write \"override: substring\" in the rationale",
    "- punctuation splitting (d.o.g) does NOT count as match by default",
    "- hashtags/usernames COUNT as match by default",
    "- quoted text COUNT as match by default",
    "",
    "JUDGE PROFILES (do not modify):",
    judgeProfiles,
    "",
    "Rule to consider:\n" ++ rule,
    "",
    (if trimmedContext ≠ "" then
      "Server / community context (use this to calibrate strictness, but do not override the rule):\n"
        ++ trimmedContext ++ "\n"
    else "Server / community context: (none provided)\n"),
    "",
    "Testcases:",
    testcaseList]

/-! ## The fallback synthesizer (server.js 41-106, identical in part_002 38-103) -/

/-- A dataset column description. -/
structure ColumnSpec where
  name : String
  type : String
  description : String
deriving DecidableEq, Repr

/-- A sample row of the fallback dataset (`{ message, decision,
rationale }`). -/
structure SampleRow where
  message : String
  decision : String
  rationale : String
deriving DecidableEq, Repr

/-- A dataset table (`{ name, description, columns, sampleRows }`). -/
structure DatasetTable where
  name : String
  description : String
  columns : List ColumnSpec
  sampleRows : List SampleRow
deriving DecidableEq, Repr

/-- The payload returned by the fallback synthesizer
(`{ notes, tables }`). -/
structure FallbackPayload where
  notes : String
  tables : List DatasetTable
deriving DecidableEq, Repr

/-- The tagline computation of `createFallbackTables`
(server.js 42-44): trim the rule, cut a rule longer than 120 characters
to its first 117 characters plus `"..."`, collapse whitespace runs and
trim again. -/
def ruleTaglineL (l : List Char) : List Char :=
  let trimmedRule := jsTrimL l
  let shortRule :=
    if 120 < trimmedRule.length then trimmedRule.take 117 ++ "...".data
    else trimmedRule
  jsTrimL (collapseWs shortRule)

/-- String version of `ruleTaglineL`. -/
def ruleTagline (rule : String) : String :=
  ⟨ruleTaglineL rule.data⟩

/-- The fixed `baseNotes` text of `createFallbackTables`
(server.js 46-47). -/
def fallbackBaseNotes : String :=
  "Generated locally without calling GPT. Set OPENAI_API_KEY before starting the server to enable live completions."

/-- The fixed column list of `createFallbackTables` (server.js 49-65). -/
def fallbackColumns : List ColumnSpec := [
  ⟨"message", "text", "User provided text or scenario that should be moderated."⟩,
  ⟨"decision", "enum('allow','review','flag')",
    "How the moderation system should respond to the content."⟩,
  ⟨"rationale", "text", "Explanation tying the decision back to the moderation rule."⟩]

/-- The function `createFallbackTables` (server.js 41-106): the deterministic
fallback dataset.  `example` is the already-trimmed string the handlers
pass (`if (example)` is the non-emptiness test). -/
def createFallbackTables (rule exampleText : String) : FallbackPayload :=
  let ruleTag := ruleTagline rule
  let rows : List SampleRow :=
    (if exampleText ≠ "" then
      [⟨exampleText, "review", "User-supplied example queued for validation against the rule."⟩]
    else []) ++ [
    ⟨"This content intentionally violates the rule: " ++ ruleTag ++ ".", "flag",
      "Direct violation crafted to trigger the policy."⟩,
    ⟨"Benign message demonstrating compliant behaviour with polite language.", "allow",
      "Does not conflict with the moderation guidance."⟩,
    ⟨"Borderline scenario requiring human review to interpret nuance.", "review",
      "Ambiguous tone relative to the policy; needs escalation."⟩]
  ⟨fallbackBaseNotes ++ " Target rule: " ++ ruleTag ++ ".",
   [⟨"moderation_cases",
     "Synthetic cases assembled to exercise the requested moderation rule.",
     fallbackColumns, rows⟩]⟩

/-! ## The `/generate` handlers when no upstream credential is configured -/

/-- A successful `/generate` JSON body (the fields the fallback paths
produce; `fallbackReason` is `none` when the response omits the key). -/
structure GenOk where
  prompt : String
  notes : String
  tables : List DatasetTable
  usedFallback : Bool
  fallbackReason : Option String
deriving DecidableEq, Repr

/-- An HTTP response of a `/generate` handler: an error status with a
message, or a 200 with a `GenOk` body. -/
inductive HttpResponse where
  | err (status : Nat) (message : String)
  | ok (body : GenOk)
deriving DecidableEq, Repr

/-- The body of a 200 response, if any. -/
def okBody : HttpResponse → Option GenOk
  | .ok b => some b
  | .err _ _ => none

/-- The guard `typeof example === 'string' ? example.trim() : ''` (server.js 120,
123, 153 and part_002 116, 119). -/
def exampleString (exampleField : Option JsValue) : String :=
  match exampleField with
  | some (.str e) => jsTrim e
  | _ => ""

/-- The route `/generate` of server variant 1 (server.js 112-130) specialised to
`openaiClient === null`: validate the rule
(`!rule || typeof rule !== 'string' || !rule.trim()` is a 400), then
answer with the fallback payload, `usedFallback: true` and the
`fallbackReason` string.  (The branch that calls the completion service
performs network I/O and is outside this no-credential claim.) -/
def generateV1NoClient (rule exampleField : Option JsValue) : HttpResponse :=
  match rule with
  | some (.str s) =>
    if jsTrim s = "" then .err 400 "The \"rule\" field is required."
    else
      let trimmedRule := jsTrim s
      let payload := createFallbackTables trimmedRule (exampleString exampleField)
      .ok ⟨buildPromptV1 trimmedRule (exampleString exampleField), payload.notes, payload.tables,
           true, some "OPENAI_API_KEY not set on the server."⟩
  | _ => .err 400 "The \"rule\" field is required."

/-- The route `/generate` of server variant 2 (server.js 330-349) specialised to
`openaiClient === null`: after the same rule validation (the count and
prompt computed before the check are dead in this branch), the handler
answers 500 with a remediation message — no fallback dataset. -/
def generateV2NoClient (rule _example _count : Option JsValue) : HttpResponse :=
  match rule with
  | some (.str s) =>
    if jsTrim s = "" then .err 400 "The \"rule\" field is required."
    else .err 500 "OPENAI_API_KEY not set on the server. Please configure the API key to generate content."
  | _ => .err 400 "The \"rule\" field is required."

/-- The route `/generate` of the unnamed placeholder server (part_002 107-126):
always serves the fallback payload with `usedFallback: true` and NO
`fallbackReason` key. -/
def generatePart002 (rule exampleField : Option JsValue) : HttpResponse :=
  match rule with
  | some (.str s) =>
    if jsTrim s = "" then .err 400 "The \"rule\" field is required."
    else
      let trimmedRule := jsTrim s
      let payload := createFallbackTables trimmedRule (exampleString exampleField)
      .ok ⟨buildPromptV1 trimmedRule (exampleString exampleField), payload.notes, payload.tables,
           true, none⟩
  | _ => .err 400 "The \"rule\" field is required."

/-- The range that actually holds for parsed percentages: absent, `NaN`
(from a multi-dot token), or a non-negative rational — with no upper
bound. -/
def verdictPercentageOk (v : Verdict) : Prop :=
  v.percentage = none ∨ v.percentage = some JSNum.nan ∨
    ∃ q, v.percentage = some (JSNum.num q) ∧ 0 ≤ q

/-! ## Helper lemmas -/

theorem jsTrimL_length_le (l : List Char) : (jsTrimL l).length ≤ l.length := by
  unfold jsTrimL
  rw [List.length_reverse]
  refine le_trans (List.Sublist.length_le (List.dropWhile_sublist _)) ?h
  rw [List.length_reverse]
  exact List.Sublist.length_le (List.dropWhile_sublist _)

theorem collapseWsAux_length_le (b : Bool) (l : List Char) :
    (collapseWsAux b l).length ≤ l.length := by
  induction l generalizing b with
  | nil => simp [collapseWsAux]
  | cons c rest ih =>
    simp only [collapseWsAux]
    split
    · split
      · exact le_trans (ih true) (Nat.le_succ _)
      · simpa using ih true
    · simpa using ih false

theorem ruleTaglineL_length_le (l : List Char) : (ruleTaglineL l).length ≤ 120 := by
  have heq : ruleTaglineL l = jsTrimL (collapseWsAux false
      (if 120 < (jsTrimL l).length then (jsTrimL l).take 117 ++ "...".data else jsTrimL l)) := rfl
  rw [heq]
  split
  · refine le_trans (jsTrimL_length_le _) (le_trans (collapseWsAux_length_le false _) ?h)
    simp only [List.length_append, List.length_take, List.length]
    omega
  · rename_i h
    refine le_trans (jsTrimL_length_le _) (le_trans (collapseWsAux_length_le false _) ?h)
    omega

theorem appendVerdict_map_name (acc : List JudgeRecord) (v : Verdict) :
    (appendVerdict acc v).map JudgeRecord.name = acc.map JudgeRecord.name := by
  induction acc with
  | nil => rfl
  | cons j rest ih =>
    cases rest with
    | nil => rfl
    | cons j2 r2 => simpa [appendVerdict] using ih

theorem appendVerdict_length (acc : List JudgeRecord) (v : Verdict) :
    (appendVerdict acc v).length = acc.length := by
  have h := appendVerdict_map_name acc v
  have := congrArg List.length h
  simpa using this

theorem processLine_blank (acc : List JudgeRecord) (l : List Char)
    (h : (jsTrimL l).isEmpty = true) : processLine acc l = acc := by
  unfold processLine
  simp [h]

theorem processLine_nil_nonheader (l : List Char)
    (h : isJudgeHeader (jsTrimL l) = false) : processLine [] l = [] := by
  unfold processLine
  by_cases hb : (jsTrimL l).isEmpty = true
  · simp [hb]
  · simp [hb, h]

theorem foldl_processLine_nil (pre : List (List Char))
    (h : ∀ l ∈ pre, isJudgeHeader (jsTrimL l) = false) :
    pre.foldl processLine [] = [] := by
  induction pre with
  | nil => rfl
  | cons p rest ih =>
    have hp : processLine [] p = [] := processLine_nil_nonheader p (h p (by simp))
    simp only [List.foldl_cons, hp]
    exact ih (fun l hl => h l (by simp [hl]))

theorem foldl_processLine_blank (lines : List (List Char)) (acc : List JudgeRecord)
    (h : ∀ l ∈ lines, (jsTrimL l).isEmpty = true) :
    lines.foldl processLine acc = acc := by
  induction lines with
  | nil => rfl
  | cons p rest ih =>
    have hp : processLine acc p = acc := processLine_blank acc p (h p (by simp))
    simp only [List.foldl_cons, hp]
    exact ih (fun l hl => h l (by simp [hl]))

/-! ## Claims about the judge-summary parser -/

/-- C3: on the input `"Judge: Ana\n- Testcase 1: 72% - clear match\n-
Testcase 2: 15% - no match"` the parser returns exactly one judge record
named `Ana` with exactly the two structured verdicts
`(1, 72, "clear match")` and `(2, 15, "no match")`. -/
theorem claim3_concrete_parse :
    parseJudgeSummary "Judge: Ana\n- Testcase 1: 72% - clear match\n- Testcase 2: 15% - no match" =
      [⟨"Ana", [⟨some (.num 1), some (.num 72), "clear match"⟩,
                ⟨some (.num 2), some (.num 15), "no match"⟩]⟩] := by decide

/-- C4: a trimmed non-empty line that is neither a judge header nor a
match of the verdict regex, processed while a judge record is open,
appends the degraded verdict `{testcaseId: null, percentage: null,
rationale: trimmed line}` to the current (last) judge; no judge record
is dropped and no failure occurs (the processor is total). -/
theorem claim4_degraded_verdict (acc : List JudgeRecord) (rawLine : List Char)
    (hopen : acc.isEmpty = false)
    (hne : (jsTrimL rawLine).isEmpty = false)
    (hhdr : isJudgeHeader (jsTrimL rawLine) = false)
    (hmatch : matchVerdict (jsTrimL rawLine) = none) :
    processLine acc rawLine = appendVerdict acc ⟨none, none, ⟨jsTrimL rawLine⟩⟩ ∧
    (processLine acc rawLine).map JudgeRecord.name = acc.map JudgeRecord.name ∧
    (processLine acc rawLine).length = acc.length := by
  have hmain : processLine acc rawLine = appendVerdict acc ⟨none, none, ⟨jsTrimL rawLine⟩⟩ := by
    unfold processLine
    simp [hne, hhdr, hopen, hmatch]
  refine ⟨hmain, ?h1, ?h2⟩
  · rw [hmain]; exact appendVerdict_map_name acc _
  · rw [hmain]; exact appendVerdict_length acc _

/-- Witness for C4 at the concrete input of the spec: the line
`"- weird format"` under the open judge `Ana`. -/
theorem claim4_witness :
    processLine [⟨"Ana", []⟩] "- weird format".data =
      appendVerdict [⟨"Ana", []⟩] ⟨none, none, ⟨jsTrimL "- weird format".data⟩⟩ ∧
    (processLine [⟨"Ana", []⟩] "- weird format".data).map JudgeRecord.name =
      [⟨"Ana", ([] : List Verdict)⟩].map JudgeRecord.name ∧
    (processLine [⟨"Ana", []⟩] "- weird format".data).length =
      ([⟨"Ana", ([] : List Verdict)⟩] : List JudgeRecord).length :=
  claim4_degraded_verdict [⟨"Ana", []⟩] "- weird format".data
    (by decide) (by decide) (by decide) (by decide)

/-- C9: the parser is total (it is a Lean function, hence terminates
and throws nothing, on every input); the empty string and a string of
only blank lines parse to the empty list; and any prefix of lines that
are not judge headers is silently discarded. -/
theorem claim9_parser_total :
    parseJudgeSummary "" = [] ∧
    (∀ s : String, (∀ l ∈ splitNl s.data, (jsTrimL l).isEmpty = true) →
      parseJudgeSummary s = []) ∧
    (∀ pre post : List (List Char),
      (∀ l ∈ pre, isJudgeHeader (jsTrimL l) = false) →
      (pre ++ post).foldl processLine [] = post.foldl processLine []) := by
  refine ⟨rfl, ?h1, ?h2⟩
  · intro s hs
    unfold parseJudgeSummary
    split
    · rfl
    · exact foldl_processLine_blank _ [] hs
  · intro pre post hpre
    rw [List.foldl_append, foldl_processLine_nil pre hpre]

/-- Witness for C9: a blank-lines input and a discarded junk prefix. -/
theorem claim9_witness :
    parseJudgeSummary " \n\t\n" = [] ∧
    (["hello world".data] ++ ["Judge: A".data]).foldl processLine [] =
      ["Judge: A".data].foldl processLine [] :=
  ⟨claim9_parser_total.2.1 " \n\t\n" (by decide),
   claim9_parser_total.2.2 ["hello world".data] ["Judge: A".data] (by decide)⟩

/-- C10: a line whose lowercase form starts with `judge:` but whose
text after the first colon trims to the empty string does not open a
judge record: the accumulator — in particular the currently open judge,
its last element — is unchanged, so later verdict lines still attach to
the previous judge (or are discarded when none is open). -/
theorem claim10_empty_judge_name (acc : List JudgeRecord) (rawLine : List Char)
    (hne : (jsTrimL rawLine).isEmpty = false)
    (hhdr : isJudgeHeader (jsTrimL rawLine) = true)
    (hname : (jsTrimL (jsSliceFrom (jsTrimL rawLine)
      (jsIndexOf (jsTrimL rawLine) ':' + 1))).isEmpty = true) :
    processLine acc rawLine = acc := by
  unfold processLine
  simp [hne, hhdr, hname]

/-- Witness for C10 at the concrete line `"Judge:"` with an open judge. -/
theorem claim10_witness :
    processLine [⟨"Ana", [⟨none, none, "z"⟩]⟩] "Judge:".data =
      [⟨"Ana", [⟨none, none, "z"⟩]⟩] :=
  claim10_empty_judge_name [⟨"Ana", [⟨none, none, "z"⟩]⟩] "Judge:".data
    (by decide) (by decide) (by decide)

theorem jsNumberOfDigitsDots_cases (p : List Char) :
    jsNumberOfDigitsDots p = JSNum.nan ∨
      ∃ q, jsNumberOfDigitsDots p = JSNum.num q ∧ 0 ≤ q := by
  simp only [jsNumberOfDigitsDots]
  split
  · exact Or.inr ⟨_, rfl, by positivity⟩
  · split
    · split
      · exact Or.inl rfl
      · exact Or.inr ⟨_, rfl, by positivity⟩
    · exact Or.inl rfl

theorem appendVerdict_verdict_mem (acc : List JudgeRecord) (v : Verdict)
    (j : JudgeRecord) (hj : j ∈ appendVerdict acc v) (w : Verdict) (hw : w ∈ j.verdicts) :
    (∃ j0 ∈ acc, w ∈ j0.verdicts) ∨ w = v := by
  induction acc generalizing j with
  | nil => simp [appendVerdict] at hj
  | cons j0 rest ih =>
    cases rest with
    | nil =>
      simp [appendVerdict] at hj
      subst hj
      simp at hw
      rcases hw with hw | hw
      · exact Or.inl ⟨j0, by simp, hw⟩
      · exact Or.inr hw
    | cons j1 r1 =>
      simp only [appendVerdict, List.mem_cons] at hj
      rcases hj with hj | hj
      · subst hj
        exact Or.inl ⟨j, by simp, hw⟩
      · rcases ih j hj hw with ⟨j2, hj2, hw2⟩ | heq
        · exact Or.inl ⟨j2, by simp [hj2], hw2⟩
        · exact Or.inr heq

theorem processLine_percentage_inv (acc : List JudgeRecord) (l : List Char)
    (hacc : ∀ j ∈ acc, ∀ w ∈ j.verdicts, verdictPercentageOk w) :
    ∀ j ∈ processLine acc l, ∀ w ∈ j.verdicts, verdictPercentageOk w := by
  intro j hj w hw
  simp only [processLine] at hj
  split at hj
  · exact hacc j hj w hw
  · split at hj
    · split at hj
      · exact hacc j hj w hw
      · rcases List.mem_append.mp hj with hj2 | hj2
        · exact hacc j hj2 w hw
        · simp at hj2
          subst hj2
          simp at hw
    · split at hj
      · exact hacc j hj w hw
      · split at hj
        · rename_i d p cap heq
          rcases appendVerdict_verdict_mem _ _ j hj w hw with ⟨j0, hj0, hw0⟩ | heq2
          · exact hacc j0 hj0 w hw0
          · subst heq2
            rcases jsNumberOfDigitsDots_cases p with h | ⟨q, hq, hq0⟩
            · exact Or.inr (Or.inl (by simp [h]))
            · exact Or.inr (Or.inr ⟨q, by simp [hq], hq0⟩)
        · rcases appendVerdict_verdict_mem _ _ j hj w hw with ⟨j0, hj0, hw0⟩ | heq2
          · exact hacc j0 hj0 w hw0
          · subst heq2
            exact Or.inl rfl

theorem foldl_processLine_percentage_inv (lines : List (List Char))
    (acc : List JudgeRecord)
    (hacc : ∀ j ∈ acc, ∀ w ∈ j.verdicts, verdictPercentageOk w) :
    ∀ j ∈ lines.foldl processLine acc, ∀ w ∈ j.verdicts, verdictPercentageOk w := by
  induction lines generalizing acc with
  | nil => exact hacc
  | cons p rest ih =>
    simp only [List.foldl_cons]
    exact ih (processLine acc p) (processLine_percentage_inv acc p hacc)

/-- C8 counterexample: on the input `"Judge: A\n- Testcase 1: 700% -
x"` the parser produces a verdict whose percentage is 700, which is not
in [0, 100] — the parser never clamps or rejects out-of-range
percentages. -/
theorem claim8_counterexample :
    parseJudgeSummary "Judge: A\n- Testcase 1: 700% - x" =
      [⟨"A", [⟨some (.num 1), some (.num 700), "x"⟩]⟩] ∧
    ¬ ((700 : ℚ) ≤ 100) := ⟨by decide, by norm_num⟩

/-- C8 as amended: for every input text, every verdict's percentage is
`null`, `NaN` (a token such as `1.2.3`), or a non-negative rational —
the upper bound 100 of the claim is not enforced. -/
theorem claim8_amended_percentage_range (s : String) (j : JudgeRecord) (v : Verdict)
    (hj : j ∈ parseJudgeSummary s) (hv : v ∈ j.verdicts) :
    v.percentage = none ∨ v.percentage = some JSNum.nan ∨
      ∃ q, v.percentage = some (JSNum.num q) ∧ 0 ≤ q := by
  unfold parseJudgeSummary at hj
  split at hj
  · simp at hj
  · exact foldl_processLine_percentage_inv _ [] (by simp) j hj v hv

/-- Witness for the amended C8 at a concrete parse. -/
theorem claim8_witness :
    (⟨some (.num 1), some (.num 72), "ok"⟩ : Verdict).percentage = none ∨
    (⟨some (.num 1), some (.num 72), "ok"⟩ : Verdict).percentage = some JSNum.nan ∨
    ∃ q, (⟨some (.num 1), some (.num 72), "ok"⟩ : Verdict).percentage =
      some (JSNum.num q) ∧ 0 ≤ q :=
  claim8_amended_percentage_range "Judge: B\n- Testcase 1: 72% - ok"
    ⟨"B", [⟨some (.num 1), some (.num 72), "ok"⟩]⟩
    ⟨some (.num 1), some (.num 72), "ok"⟩ (by decide) (by decide)

/-! ## Claims about the fallback synthesizer and the judge-panel prompt -/

/-- C6: the fallback synthesizer is total (a Lean function — it returns
on every input and throws nothing): for every non-empty rule and any
optional example it yields a non-empty dataset whose single table has
columns and at least three sample rows; the rule tagline is at most 120
characters long and is embedded in the notes and in the violating
sample message. -/
theorem claim6_fallback_total (rule exampleText : String) (_hrule : jsTrim rule ≠ "") :
    (createFallbackTables rule exampleText).tables ≠ [] ∧
    (∀ t ∈ (createFallbackTables rule exampleText).tables,
      t.columns ≠ [] ∧ 3 ≤ t.sampleRows.length) ∧
    (ruleTagline rule).length ≤ 120 ∧
    (createFallbackTables rule exampleText).notes =
      fallbackBaseNotes ++ " Target rule: " ++ ruleTagline rule ++ "." ∧
    (∀ t ∈ (createFallbackTables rule exampleText).tables,
      ∃ r ∈ t.sampleRows,
        r.message = "This content intentionally violates the rule: " ++ ruleTagline rule ++ ".") := by
  refine ⟨?h1, ?h2, ?h3, ?h4, ?h5⟩
  · simp [createFallbackTables]
  · intro t ht
    simp [createFallbackTables] at ht
    subst ht
    constructor
    · simp [fallbackColumns]
    · by_cases h : exampleText ≠ "" <;> simp [h]
  · exact ruleTaglineL_length_le rule.data
  · simp [createFallbackTables]
  · intro t ht
    simp [createFallbackTables] at ht
    subst ht
    refine ⟨⟨"This content intentionally violates the rule: " ++ ruleTagline rule ++ ".",
      "flag", "Direct violation crafted to trigger the policy."⟩, ?hm, rfl⟩
    by_cases h : exampleText ≠ "" <;> simp [h]

/-- Witness for C6 at a concrete rule. -/
theorem claim6_witness :
    (createFallbackTables "No spam" "").tables ≠ [] ∧
    (∀ t ∈ (createFallbackTables "No spam" "").tables,
      t.columns ≠ [] ∧ 3 ≤ t.sampleRows.length) ∧
    (ruleTagline "No spam").length ≤ 120 ∧
    (createFallbackTables "No spam" "").notes =
      fallbackBaseNotes ++ " Target rule: " ++ ruleTagline "No spam" ++ "." ∧
    (∀ t ∈ (createFallbackTables "No spam" "").tables,
      ∃ r ∈ t.sampleRows,
        r.message = "This content intentionally violates the rule: " ++ ruleTagline "No spam" ++ ".") :=
  claim6_fallback_total "No spam" "" (by decide)

theorem string_append_assoc (a b c : String) : a ++ b ++ c = a ++ (b ++ c) := by
  rcases a with ⟨la⟩
  rcases b with ⟨lb⟩
  rcases c with ⟨lc⟩
  show String.mk (la ++ lb ++ lc) = String.mk (la ++ (lb ++ lc))
  rw [List.append_assoc]

theorem testcaseLinesFrom_getElem (start : Nat) (exs : List TCExample) (i : Nat)
    (ex : TCExample) (h : exs[i]? = some ex) :
    (testcaseLinesFrom start exs)[i]? =
      some ("Testcase " ++ toString (start + i + 1) ++ ": " ++ ex.text.getD "") := by
  induction exs generalizing start i with
  | nil => simp at h
  | cons e rest ih =>
    cases i with
    | zero =>
      simp at h
      subst h
      simp [testcaseLinesFrom]
    | succ n =>
      simp only [List.getElem?_cons_succ] at h
      have := ih (start + 1) n h
      simp only [testcaseLinesFrom, List.getElem?_cons_succ]
      rw [this]
      have harith : start + 1 + n + 1 = start + (n + 1) + 1 := by omega
      rw [harith]

/-- C7: the judge-panel prompt builders (both server variants share
these rendering lambdas verbatim) render a profile line as
`"<name> (<role>, <experienceYears> years): <personality>"` exactly when
`experienceYears` is a number greater than zero, as
`"<name> (<role>, relevant experience): <personality>"` otherwise, and
render the test case at 0-based position `i` as
`"Testcase <i+1>: <text>"`. -/
theorem claim7_render (j : Judge) (y : JSNum) (exs : List TCExample) (i : Nat)
    (ex : TCExample) :
    (j.experienceYears = some y → jsGtZero y = true →
      judgeProfileLine j =
        j.name ++ " (" ++ j.role ++ ", " ++ jsNumToString y ++ " years" ++ "): "
          ++ j.personality) ∧
    ((∀ y0, j.experienceYears = some y0 → jsGtZero y0 = false) →
      judgeProfileLine j =
        j.name ++ " (" ++ j.role ++ ", " ++ "relevant experience" ++ "): "
          ++ j.personality) ∧
    (exs[i]? = some ex →
      (testcaseLines exs)[i]? =
        some ("Testcase " ++ toString (i + 1) ++ ": " ++ ex.text.getD "")) := by
  refine ⟨?h1, ?h2, ?h3⟩
  · intro hy hpos
    simp [judgeProfileLine, hy, hpos, string_append_assoc]
  · intro hneg
    cases hy : j.experienceYears with
    | none => simp [judgeProfileLine, hy, string_append_assoc]
    | some y0 => simp [judgeProfileLine, hy, hneg y0 hy, string_append_assoc]
  · intro h
    have := testcaseLinesFrom_getElem 0 exs i ex h
    simpa [testcaseLines] using this

/-- Witness for C7 at concrete judges and a concrete test case. -/
theorem claim7_witness :
    judgeProfileLine ⟨"Ana", "Policy lead", some (JSNum.num 12), "strict"⟩ =
      "Ana" ++ " (" ++ "Policy lead" ++ ", " ++ jsNumToString (JSNum.num 12)
        ++ " years" ++ "): " ++ "strict" ∧
    judgeProfileLine ⟨"Bo", "Novice", none, "curious"⟩ =
      "Bo" ++ " (" ++ "Novice" ++ ", " ++ "relevant experience" ++ "): " ++ "curious" ∧
    (testcaseLines [⟨some "hello"⟩])[0]? =
      some ("Testcase " ++ toString (0 + 1) ++ ": " ++ (some "hello").getD "") :=
  ⟨(claim7_render ⟨"Ana", "Policy lead", some (JSNum.num 12), "strict"⟩
      (JSNum.num 12) [] 0 ⟨none⟩).1 rfl (by decide),
   (claim7_render ⟨"Bo", "Novice", none, "curious"⟩
      JSNum.nan [] 0 ⟨none⟩).2.1 (fun y0 h => by cases h),
   (claim7_render ⟨"Bo", "Novice", none, "curious"⟩
      JSNum.nan [⟨some "hello"⟩] 0 ⟨some "hello"⟩).2.2 rfl⟩

/-! ## Claims about the count clamps and the no-credential handlers -/

/-- C2 (evaluation at the failing input): `buildAgent2Prompt` guards
with `count > 0` but then takes `Math.floor(count)`, so the fractional
count 0.5 floors to 0 and the emitted instruction text reads
`Produce exactly 0 examples ...` — a non-positive count propagated into
the prompt.  The default substitution for non-positive and non-finite
inputs (100 and, in `buildPrompt` variant 2, 15) is also evaluated. -/
theorem claim2_code_bug_eval :
    agent2SafeCount (JSNum.num (mkRat 1 2)) = JSNum.num 0 ∧
    buildAgent2Prompt "x" (JSNum.num (mkRat 1 2)) =
      Except.ok (agent2PromptPre ++ "0" ++ agent2PromptMid ++ "x" ++ agent2PromptPost) ∧
    jsNumToString (JSNum.num 0) = "0" ∧
    agent2SafeCount (JSNum.num 0) = JSNum.num 100 ∧
    agent2SafeCount (JSNum.num (-3)) = JSNum.num 100 ∧
    agent2SafeCount JSNum.nan = JSNum.num 100 ∧
    agent2SafeCount JSNum.posInf = JSNum.num 100 ∧
    bpV2SafeCount (JSNum.num 0) = JSNum.num 15 ∧
    bpV2SafeCount (JSNum.num (-3)) = JSNum.num 15 ∧
    bpV2SafeCount JSNum.nan = JSNum.num 15 ∧
    bpV2SafeCount JSNum.posInf = JSNum.num 15 ∧
    bpV2SafeCount (JSNum.num (mkRat 1 2)) = JSNum.num (mkRat 1 2) := by
  refine ⟨by decide, rfl, by decide, by decide, by decide, by decide, by decide,
    by decide, by decide, by decide, by decide, by decide⟩

/-- C5 as amended: with no credential configured, server variant 1
answers 200 with exactly the fallback synthesizer's dataset,
`usedFallback: true` and the non-empty reason string — the other two
`/generate` revisions do not (see the counterexample). -/
theorem claim5_amended_fallback (s : String) (exampleField : Option JsValue)
    (hrule : jsTrim s ≠ "") :
    generateV1NoClient (some (.str s)) exampleField =
      HttpResponse.ok ⟨buildPromptV1 (jsTrim s) (exampleString exampleField),
        (createFallbackTables (jsTrim s) (exampleString exampleField)).notes,
        (createFallbackTables (jsTrim s) (exampleString exampleField)).tables,
        true, some "OPENAI_API_KEY not set on the server."⟩ ∧
    ("OPENAI_API_KEY not set on the server." : String) ≠ "" ∧
    (createFallbackTables (jsTrim s) (exampleString exampleField)).tables ≠ [] := by
  refine ⟨?h1, by decide, by simp [createFallbackTables]⟩
  simp only [generateV1NoClient]
  simp [hrule]

/-- Witness for the amended C5 at the spec's scenario rule. -/
theorem claim5_witness :
    generateV1NoClient (some (.str "No mentions of violence")) none =
      HttpResponse.ok ⟨buildPromptV1 (jsTrim "No mentions of violence") (exampleString none),
        (createFallbackTables (jsTrim "No mentions of violence") (exampleString none)).notes,
        (createFallbackTables (jsTrim "No mentions of violence") (exampleString none)).tables,
        true, some "OPENAI_API_KEY not set on the server."⟩ ∧
    ("OPENAI_API_KEY not set on the server." : String) ≠ "" ∧
    (createFallbackTables (jsTrim "No mentions of violence") (exampleString none)).tables ≠ [] :=
  claim5_amended_fallback "No mentions of violence" none (by decide)

/-- C5 counterexample: on the same valid rule with no credential, the
placeholder server (part_002) answers with the fallback dataset and
`usedFallback: true` but NO `fallbackReason` field, and server variant
2 answers 500 with no dataset at all — so the claim does not hold of
every `/generate` revision it cites. -/
theorem claim5_counterexample :
    (okBody (generatePart002 (some (.str "No mentions of violence")) none)).map
      GenOk.usedFallback = some true ∧
    (okBody (generatePart002 (some (.str "No mentions of violence")) none)).map
      GenOk.fallbackReason = some none ∧
    generateV2NoClient (some (.str "No mentions of violence")) none none =
      HttpResponse.err 500
        "OPENAI_API_KEY not set on the server. Please configure the API key to generate content." :=
  ⟨by decide, by decide, by decide⟩

theorem isArrVal_getD_null_iff (o : Option JsValue) :
    isArrVal (o.getD JsValue.null) = true ↔ ∃ xs, o = some (JsValue.arr xs) := by
  cases o with
  | none => simp [isArrVal]
  | some v => cases v <;> simp [isArrVal]

/-- C1 as amended: variant 3 fails exactly unless the trimmed text is
valid JSON whose truthy result carries `examples` as an array (the
claimed behaviour); variant 1 requires only a truthy `'object'` whose
`tables` property is truthy — any truthy non-sequence passes; variant 2
requires only a truthy `'object'` and checks no key at all.  In every
variant a parse failure (`none`) fails the whole stage with no partial
result. -/
theorem claim1_amended_strict_json (rawText : String) :
    ((stageV3 rawText).isSome = true ↔
      ∃ v, jsonParse (jsTrim rawText) = some v ∧ jsTruthy v = true ∧
        ∃ xs, getField v "examples" = some (JsValue.arr xs)) ∧
    ((stageV1 rawText).isSome = true ↔
      ∃ v, jsonParse (jsTrim rawText) = some v ∧ jsTruthy v = true ∧
        jsTypeofObject v = true ∧ truthyOpt (getField v "tables") = true) ∧
    ((stageV2 rawText).isSome = true ↔
      ∃ v, jsonParse rawText = some v ∧ jsTruthy v = true ∧ jsTypeofObject v = true) := by
  have hempty : jsonParse "" = none := rfl
  refine ⟨?h3, ?h1, ?h2⟩
  · simp only [stageV3]
    by_cases h0 : jsTrim rawText = ""
    · simp [h0, hempty]
    · rw [if_neg h0]
      cases hp : jsonParse (jsTrim rawText) with
      | none => simp
      | some v =>
        simp only [Option.some.injEq]
        constructor
        · intro hs
          split at hs
          · rename_i hc
            rw [Bool.and_eq_true] at hc
            exact ⟨v, rfl, hc.1, (isArrVal_getD_null_iff _).mp hc.2⟩
          · simp at hs
        · rintro ⟨v2, hv2, htr, xs, harr⟩
          subst hv2
          rw [if_pos]
          · rfl
          · rw [Bool.and_eq_true]
            exact ⟨htr, (isArrVal_getD_null_iff _).mpr ⟨xs, harr⟩⟩
  · simp only [stageV1]
    by_cases h0 : jsTrim rawText = ""
    · simp [h0, hempty]
    · rw [if_neg h0]
      cases hp : jsonParse (jsTrim rawText) with
      | none => simp
      | some v =>
        simp only [Option.some.injEq]
        constructor
        · intro hs
          split at hs
          · rename_i hc
            rw [Bool.and_eq_true, Bool.and_eq_true] at hc
            exact ⟨v, rfl, hc.1.1, hc.1.2, hc.2⟩
          · simp at hs
        · rintro ⟨v2, hv2, htr, hobj, htab⟩
          subst hv2
          rw [if_pos]
          · rfl
          · rw [Bool.and_eq_true, Bool.and_eq_true]
            exact ⟨⟨htr, hobj⟩, htab⟩
  · simp only [stageV2]
    by_cases h0 : rawText = ""
    · simp [h0, hempty]
    · rw [if_neg h0]
      cases hp : jsonParse rawText with
      | none => simp
      | some v =>
        simp only [Option.some.injEq]
        constructor
        · intro hs
          split at hs
          · rename_i hc
            rw [Bool.and_eq_true] at hc
            exact ⟨v, rfl, hc.1, hc.2⟩
          · simp at hs
        · rintro ⟨v2, hv2, htr, hobj⟩
          subst hv2
          rw [if_pos]
          · rfl
          · rw [Bool.and_eq_true]
            exact ⟨htr, hobj⟩

/-- C1 counterexample: the text `{"tables": 5}` is valid JSON whose
`tables` key is present but is NOT a sequence, yet the variant-1 parse
stage succeeds on it — refuting "it succeeds only when that key is
present and is a sequence". -/
theorem claim1_counterexample :
    stageV1 "\x7b \"tables\": 5 \x7d" = some (JsValue.obj [("tables", JsValue.num 5)]) ∧
    getField (JsValue.obj [("tables", JsValue.num 5)]) "tables" = some (JsValue.num 5) ∧
    isArrVal (JsValue.num 5) = false :=
  ⟨rfl, rfl, rfl⟩

/-- Witness for the amended C1: the variant-3 characterization applied
at a concrete valid response text whose `examples` key is an array. -/
theorem claim1_witness :
    (stageV3 "\x7b\"examples\": []\x7d").isSome = true :=
  (claim1_amended_strict_json "\x7b\"examples\": []\x7d").1.mpr
    ⟨JsValue.obj [("examples", JsValue.arr [])], rfl, rfl, ⟨[], rfl⟩⟩
